import Mathlib

/-!
Verification of the ROQET API backend (`src/main.py`): a shallow embedding
of its data model (NewsItem, ToolItem, CourseLesson, CourseStage), the
three static content endpoints (`get_news`, `get_tools`, `get_course_map`),
and the database diagnostics probe (`test_database`) with explicit
exception-propagation semantics, followed by theorems settling the
specification claims.
-/

namespace Roqet

/-- Embeds the pydantic model `NewsItem` (src/main.py lines 18-24). -/
structure NewsItem where
  id : String
  title : String
  summary : String
  timeframe : String
  tags : List String := []
  source : Option String := none
deriving DecidableEq, Repr

/-- Embeds the pydantic model `ToolItem` (src/main.py lines 26-32). -/
structure ToolItem where
  id : String
  name : String
  purpose : String
  when_to_use : String
  best_practices : List String := []
  level : String
deriving DecidableEq, Repr

/-- Embeds the pydantic model `CourseLesson` (src/main.py lines 34-38). -/
structure CourseLesson where
  id : String
  title : String
  objectives : List String
  level : String
deriving DecidableEq, Repr

/-- Embeds the pydantic model `CourseStage` (src/main.py lines 40-44). -/
structure CourseStage where
  key : String
  title : String
  description : String
  lessons : List CourseLesson
deriving DecidableEq, Repr

/-- Embeds `get_news` (src/main.py lines 56-83): the literal list returned
by `GET /api/news`. -/
def get_news : List NewsItem :=
  [ { id := "n1",
      title := "CPI prints inline; initial risk-on reaction fades",
      summary := "Inflation meets expectations. Short-term relief rally, but trend depends on upcoming labor data.",
      timeframe := "short",
      tags := ["macro", "inflation", "usd"],
      source := some "ROQET Brief" },
    { id := "n2",
      title := "Central bank signals higher-for-longer stance",
      summary := "Policy path suggests slower cuts. Watch yield curve and credit conditions over the next quarter.",
      timeframe := "long",
      tags := ["rates", "bonds"],
      source := some "ROQET Macro" },
    { id := "n3",
      title := "Earnings season: dispersion favors stock-pickers",
      summary := "Mixed beats and margin pressures. Focus on relative strength and post-earnings drift.",
      timeframe := "short",
      tags := ["equities", "earnings"],
      source := some "ROQET Desk" } ]

/-- Embeds `get_tools` (src/main.py lines 85-124): the literal list returned
by `GET /api/tools`. -/
def get_tools : List ToolItem :=
  [ { id := "position-sizer",
      name := "Position Sizer",
      purpose := "Calculate position size based on account risk and stop distance.",
      when_to_use := "Before placing any trade.",
      best_practices :=
        [ "Risk a fixed % per trade (e.g., 0.5%–1.0%).",
          "Recompute after equity changes.",
          "Use worst-case spread/slippage in stop distance." ],
      level := "Pre-Launch" },
    { id := "trade-journal",
      name := "Trade Journal",
      purpose := "Log setups, context, execution, and outcomes to measure edge.",
      when_to_use := "Immediately after each trade.",
      best_practices :=
        [ "Tag by setup and market regime.",
          "Record reasons for exit, not just P/L.",
          "Review weekly for patterns and mistakes." ],
      level := "Ascent" },
    { id := "regime-scanner",
      name := "Regime Scanner",
      purpose := "Gauge trend/chop/volatility regime before selecting tactics.",
      when_to_use := "Daily pre-market and before new positions.",
      best_practices :=
        [ "Match strategy to regime (don’t force trades).",
          "Recheck on major news days.",
          "Stand down in unclear signals." ],
      level := "Mission Control" } ]

/-- Embeds `get_course_map` (src/main.py lines 126-174): the literal list
returned by `GET /api/course-map`. -/
def get_course_map : List CourseStage :=
  [ { key := "launchpad",
      title := "Launchpad",
      description := "Core concepts, platforms, and execution basics.",
      lessons :=
        [ { id := "L1", title := "Market Basics: How Prices Move",
            objectives := ["Bid/ask, spread", "Order types: market/limit/stop"], level := "Launchpad" },
          { id := "L2", title := "Platforms & Orders",
            objectives := ["Placing orders correctly", "Fees and slippage"], level := "Launchpad" } ] },
    { key := "prelaunch",
      title := "Pre-Launch Checks",
      description := "Risk, psychology, and planning.",
      lessons :=
        [ { id := "P1", title := "Risk per Trade",
            objectives := ["Fixed % risk", "Stop placement"], level := "Pre-Launch" },
          { id := "P2", title := "Flight Plan: Trade Plan",
            objectives := ["Criteria, invalidation", "Scenarios"], level := "Pre-Launch" } ] },
    { key := "ignition",
      title := "Ignition",
      description := "Starter strategies and first live trades.",
      lessons :=
        [ { id := "I1", title := "Breakout + Retest",
            objectives := ["Context filter", "Execution checklist"], level := "Ignition" },
          { id := "I2", title := "Mean Reversion in Range",
            objectives := ["Identify range", "Risk control"], level := "Ignition" } ] },
    { key := "ascent",
      title := "Ascent",
      description := "System-building and backtesting.",
      lessons :=
        [ { id := "A1", title := "Building a Playbook",
            objectives := ["Setup templates", "Criteria & invalidations"], level := "Ascent" },
          { id := "A2", title := "Backtest Basics",
            objectives := ["Sample size", "Bias control"], level := "Ascent" } ] },
    { key := "orbit",
      title := "Orbit",
      description := "Advanced consistency and scaling.",
      lessons :=
        [ { id := "O1", title := "Scaling Risk",
            objectives := ["Risk scaling rules", "Drawdown limits"], level := "Orbit" },
          { id := "O2", title := "Regime Detection",
            objectives := ["Macro + micro filters", "Adaptation"], level := "Orbit" } ] } ]

/-!
Diagnostics probe (`test_database`, src/main.py lines 177-210).

Python exceptions are modelled explicitly: `PyExc` distinguishes an
`ImportError` from any other exception (matching the two `except` clauses),
and each exception carries its `str(e)` message. The runtime environment
(`Env`) captures everything the probe observes: the outcome of
`from database import db` and the presence of the two environment
variables. A resolved non-None handle (`DbHandle`) carries whether
`hasattr(db, 'name')` holds, the value of `db.name`, and the outcome of
`db.list_collection_names()` (either the returned list or the raised
exception's message).
-/

/-- A Python exception reaching the probe's outer `try`: either an
`ImportError` or any other `Exception`, with its `str(e)` message. -/
inductive PyExc where
  | importError (msg : String)
  | other (msg : String)
deriving DecidableEq, Repr

/-- The `db` handle obtained from `from database import db` when it is not
`None` (src/main.py line 190): name attribute and collection listing. -/
structure DbHandle where
  hasName : Bool
  name : String
  listResult : Except String (List String)
deriving Repr

/-- Outcome of the statement `from database import db`
(src/main.py line 189). -/
inductive ImportOutcome where
  | raises (e : PyExc)
  | resolved (db : Option DbHandle)
deriving Repr

/-- Everything `test_database` observes from its environment: the import
outcome and the presence of `DATABASE_URL` / `DATABASE_NAME`. -/
structure Env where
  importOutcome : ImportOutcome
  databaseUrlSet : Bool
  databaseNameSet : Bool
deriving Repr

/-- The status record built by `test_database` (src/main.py lines 180-187).
`database_url` and `database_name` start as `None` in the Python dict, so
they are `Option String` here. -/
structure StatusRecord where
  backend : String
  database : String
  database_url : Option String
  database_name : Option String
  connection_status : String
  collections : List String
deriving DecidableEq, Repr

/-- Python string slicing `s[:n]`: the first `n` code points of `s`
(src/main.py lines 200 and 206, `str(e)[:50]`). -/
def pySlice (s : String) (n : Nat) : String := ⟨s.data.take n⟩

/-- The initial `response` dict (src/main.py lines 180-187). -/
def initialResponse : StatusRecord :=
  { backend := "✅ Running",
    database := "❌ Not Available",
    database_url := none,
    database_name := none,
    connection_status := "Not Connected",
    collections := [] }

/-- The statement `from database import db` (src/main.py line 189):
raises, or yields `db` (possibly `None`). -/
def importDb (env : Env) : Except PyExc (Option DbHandle) :=
  match env.importOutcome with
  | .raises e => .error e
  | .resolved db => .ok db

/-- The body of the outer `try` (src/main.py lines 189-202), threading the
`response` record through the mutations. The inner `try`/`except` around
`db.list_collection_names()` (lines 195-200) is total: any listing
exception is mapped to the truncated warning string. -/
def tryBody (env : Env) (response : StatusRecord) : Except PyExc StatusRecord := do
  let db ← importDb env
  match db with
  | some db =>
    let response := { response with
      database := "✅ Available",
      database_url := some "✅ Configured",
      database_name := some (if db.hasName then db.name else "✅ Connected"),
      connection_status := "Connected" }
    match db.listResult with
    | .ok collections =>
      pure { response with
        collections := collections.take 10,
        database := "✅ Connected & Working" }
    | .error e =>
      pure { response with
        database := "⚠️  Connected but Error: " ++ pySlice e 50 }
  | none =>
    pure { response with database := "⚠️  Available but not initialized" }

/-- Embeds `test_database` (src/main.py lines 177-210) with explicit
exception propagation: the outer `except ImportError` / `except Exception`
clauses (lines 203-206) handle every exception the `try` body can raise,
and the two environment-variable markers are written last
(lines 208-209). -/
def test_database_run (env : Env) : Except PyExc StatusRecord := do
  let response := initialResponse
  let response ←
    match tryBody env response with
    | .ok r => pure r
    | .error (.importError _) =>
      pure { response with
        database := "❌ Database module not found (run enable-database first)" }
    | .error (.other e) =>
      pure { response with database := "❌ Error: " ++ pySlice e 50 }
  pure { response with
    database_url := some (if env.databaseUrlSet then "✅ Set" else "❌ Not Set"),
    database_name := some (if env.databaseNameSet then "✅ Set" else "❌ Not Set") }

/-!
HTTP surface (src/main.py lines 47-53 and the route decorators): six GET
routes dispatch to the handlers above. The content handlers take no input,
so `handle` ignores the environment for them; only `/test` consults it.
-/

/-- Handler for `GET /` (src/main.py lines 47-49). -/
def read_root : String := "Hello from FastAPI Backend!"

/-- Handler for `GET /api/hello` (src/main.py lines 51-53). -/
def hello : String := "Hello from the backend API!"

/-- The six GET routes of the application. -/
inductive Route where
  | root | apiHello | news | tools | courseMap | test
deriving DecidableEq, Repr

/-- A response body: one variant per handler result shape. -/
inductive Response where
  | message (s : String)
  | newsList (items : List NewsItem)
  | toolsList (items : List ToolItem)
  | stages (items : List CourseStage)
  | status (r : Except PyExc StatusRecord)
deriving Repr

/-- Route dispatch: maps each route to its handler's result in the given
environment (src/main.py route decorators on lines 47, 51, 56, 85, 126,
177). -/
def handle (route : Route) (env : Env) : Response :=
  match route with
  | .root => .message read_root
  | .apiHello => .message hello
  | .news => .newsList get_news
  | .tools => .toolsList get_tools
  | .courseMap => .stages get_course_map
  | .test => .status (test_database_run env)

/-!
Concrete environments and their probe results, used to instantiate the
claim theorems.
-/

/-- A handle named "mydb" whose collection listing succeeds. -/
def dbC2 : DbHandle := { hasName := true, name := "mydb", listResult := .ok ["users"] }

/-- Environment: handle resolved as `dbC2`, both variables unset. -/
def envC2 : Env :=
  { importOutcome := .resolved (some dbC2), databaseUrlSet := false, databaseNameSet := false }

/-- The record `test_database` returns in `envC2`. -/
def recC2 : StatusRecord :=
  { backend := "✅ Running",
    database := "✅ Connected & Working",
    database_url := some "❌ Not Set",
    database_name := some "❌ Not Set",
    connection_status := "Connected",
    collections := ["users"] }

/-- The record the `try` body produces in `envC2`, before the final
environment-variable overwrite. -/
def recC2try : StatusRecord :=
  { backend := "✅ Running",
    database := "✅ Connected & Working",
    database_url := some "✅ Configured",
    database_name := some "mydb",
    connection_status := "Connected",
    collections := ["users"] }

/-- Environment: the import raises `ImportError`, `DATABASE_URL` set,
`DATABASE_NAME` unset. -/
def envC3 : Env :=
  { importOutcome := .raises (.importError "No module named database"),
    databaseUrlSet := true, databaseNameSet := false }

/-- The record `test_database` returns in `envC3`. -/
def recC3 : StatusRecord :=
  { backend := "✅ Running",
    database := "❌ Database module not found (run enable-database first)",
    database_url := some "✅ Set",
    database_name := some "❌ Not Set",
    connection_status := "Not Connected",
    collections := [] }

/-- A 72-character exception message for the collection-listing call. -/
def errC5 : String :=
  "connection refused by server at host 127.0.0.1 port 27017 after timeout"

/-- A nameless handle whose collection listing raises `errC5`. -/
def dC5 : DbHandle := { hasName := false, name := "", listResult := .error errC5 }

/-- Environment: handle resolved as `dC5`, both variables set. -/
def envC5 : Env :=
  { importOutcome := .resolved (some dC5), databaseUrlSet := true, databaseNameSet := true }

/-- The record `test_database` returns in `envC5`. -/
def recC5 : StatusRecord :=
  { backend := "✅ Running",
    database := "⚠️  Connected but Error: " ++ pySlice errC5 50,
    database_url := some "✅ Set",
    database_name := some "✅ Set",
    connection_status := "Connected",
    collections := [] }

/-!
Helper lemmas.
-/

/-- Appending to a nonempty string yields a nonempty string. -/
theorem append_ne_empty (s t : String) (h : s ≠ "") : s ++ t ≠ "" := by
  intro hc
  apply h
  have := congrArg String.data hc
  rw [String.data_append] at this
  rcases List.append_eq_nil.mp this with ⟨h1, _⟩
  exact String.ext h1

/-- Python slicing `s[:n]` yields at most `n` code points. -/
theorem pySlice_length_le (s : String) (n : Nat) : (pySlice s n).length ≤ n :=
  List.length_take_le n s.data

/-!
Claim theorems.
-/

/-- C1: for every environment (database module present or absent, handle
initialized or `None`, collection listing succeeding or raising),
`test_database` returns the accumulated status record — the run is `ok`,
never an uncaught exception — with the backend marked running and a
nonempty descriptive database-status string. -/
theorem C1_test_database_never_raises : ∀ env : Env, ∃ r : StatusRecord,
    test_database_run env = .ok r ∧ r.backend = "✅ Running" ∧ r.database ≠ "" := by
  intro env
  obtain ⟨io, u, n⟩ := env
  cases io with
  | raises e =>
    cases e with
    | importError m => refine ⟨_, rfl, rfl, ?_⟩ ; dsimp only ; decide
    | other m =>
      refine ⟨_, rfl, rfl, ?_⟩
      dsimp only
      exact append_ne_empty _ _ (by decide)
  | resolved db =>
    cases db with
    | none => refine ⟨_, rfl, rfl, ?_⟩ ; dsimp only ; decide
    | some d =>
      obtain ⟨hn, nm, lr⟩ := d
      cases lr with
      | ok cols => refine ⟨_, rfl, rfl, ?_⟩ ; dsimp only ; decide
      | error e =>
        refine ⟨_, rfl, rfl, ?_⟩
        dsimp only
        exact append_ne_empty _ _ (by decide)

/-- C2 (counterexample): it is NOT the case that whenever the handle
resolution yields a non-None handle, the record returned by
`test_database` has `database_name` equal to the handle's name: lines
208-209 of src/main.py unconditionally overwrite `database_name` with the
environment-variable marker, so a handle named "mydb" with `DATABASE_NAME`
unset yields `database_name = "❌ Not Set"`. -/
theorem C2_counterexample :
    ¬ (∀ (env : Env) (db : DbHandle) (r : StatusRecord),
        env.importOutcome = .resolved (some db) →
        test_database_run env = .ok r →
        r.database_name = some (if db.hasName then db.name else "✅ Connected")) := by
  intro h
  have hc := h envC2 dbC2 recC2 rfl rfl
  exact absurd hc (by decide)

/-- C2 (amended): whenever the handle resolution yields a non-None handle,
the status record produced by the `try` body (src/main.py lines 189-202,
before the final environment-variable overwrite on lines 208-209) has its
`database_name` field equal to the handle's name attribute when present,
and to the generic "connected" marker otherwise. -/
theorem C2_amended_tryBody_database_name (env : Env) (db : DbHandle) (r : StatusRecord)
    (h1 : env.importOutcome = .resolved (some db))
    (h2 : tryBody env initialResponse = .ok r) :
    r.database_name = some (if db.hasName then db.name else "✅ Connected") := by
  obtain ⟨io, u, n⟩ := env
  dsimp only at h1
  subst h1
  obtain ⟨hn, nm, lr⟩ := db
  cases lr with
  | ok cols => cases h2 ; rfl
  | error e => cases h2 ; rfl

/-- Witness for C2 (amended) at a concrete environment whose handle is
named "mydb". -/
theorem C2_amended_tryBody_database_name_witness :
    recC2try.database_name = some (if dbC2.hasName then dbC2.name else "✅ Connected") :=
  C2_amended_tryBody_database_name envC2 dbC2 recC2try rfl rfl

/-- C3: in every environment, the `database_url` and `database_name` fields
of the record returned by `test_database` are the "set" marker exactly when
`DATABASE_URL` (respectively `DATABASE_NAME`) is set and the "not set"
marker otherwise, regardless of the import outcome, handle, or listing
result. -/
theorem C3_env_var_markers (env : Env) (r : StatusRecord)
    (h : test_database_run env = .ok r) :
    r.database_url = some (if env.databaseUrlSet then "✅ Set" else "❌ Not Set") ∧
    r.database_name = some (if env.databaseNameSet then "✅ Set" else "❌ Not Set") := by
  obtain ⟨io, u, n⟩ := env
  cases io with
  | raises e =>
    cases e with
    | importError m => cases h ; exact ⟨rfl, rfl⟩
    | other m => cases h ; exact ⟨rfl, rfl⟩
  | resolved db =>
    cases db with
    | none => cases h ; exact ⟨rfl, rfl⟩
    | some d =>
      obtain ⟨hn, nm, lr⟩ := d
      cases lr with
      | ok cols => cases h ; exact ⟨rfl, rfl⟩
      | error e => cases h ; exact ⟨rfl, rfl⟩

/-- Witness for C3 at a concrete environment with `DATABASE_URL` set,
`DATABASE_NAME` unset, and the import failing. -/
theorem C3_env_var_markers_witness :
    recC3.database_url = some (if envC3.databaseUrlSet then "✅ Set" else "❌ Not Set") ∧
    recC3.database_name = some (if envC3.databaseNameSet then "✅ Set" else "❌ Not Set") :=
  C3_env_var_markers envC3 recC3 rfl

/-- C4: when the import of the database module raises `ImportError`,
`test_database` still returns a well-formed status record whose `database`
field is the "module not found" message and whose `collections` field is
the empty list. -/
theorem C4_module_not_found (env : Env) (m : String) (r : StatusRecord)
    (h1 : env.importOutcome = .raises (.importError m))
    (h2 : test_database_run env = .ok r) :
    r.database = "❌ Database module not found (run enable-database first)" ∧
    r.collections = [] := by
  obtain ⟨io, u, n⟩ := env
  dsimp only at h1
  subst h1
  cases h2
  exact ⟨rfl, rfl⟩

/-- Witness for C4 at a concrete environment whose import raises
`ImportError`. -/
theorem C4_module_not_found_witness :
    recC3.database = "❌ Database module not found (run enable-database first)" ∧
    recC3.collections = [] :=
  C4_module_not_found envC3 "No module named database" recC3 rfl rfl

/-- C5: when a non-None database handle exists, the `collections` field of
the record returned by `test_database` has length at most 10; and if the
collection listing raises, the `database` field is the warning message with
the exception text truncated to at most 50 characters, while the operation
still returns normally. -/
theorem C5_collections_bounded_error_truncated (env : Env) (d : DbHandle) (r : StatusRecord)
    (h1 : env.importOutcome = .resolved (some d))
    (h2 : test_database_run env = .ok r) :
    r.collections.length ≤ 10 ∧
    (∀ e, d.listResult = .error e →
      r.database = "⚠️  Connected but Error: " ++ pySlice e 50 ∧
      (pySlice e 50).length ≤ 50) := by
  obtain ⟨io, u, n⟩ := env
  dsimp only at h1
  subst h1
  obtain ⟨hn, nm, lr⟩ := d
  cases lr with
  | ok cols =>
    cases h2
    refine ⟨?_, ?_⟩
    · dsimp only
      exact List.length_take_le 10 cols
    · intro e he
      cases he
  | error e0 =>
    cases h2
    refine ⟨?_, ?_⟩
    · dsimp only [initialResponse]
      decide
    · intro e he
      cases he
      exact ⟨rfl, pySlice_length_le e0 50⟩

/-- Witness for C5 at a concrete environment whose handle raises a
72-character error message during collection listing. -/
theorem C5_collections_bounded_error_truncated_witness :
    recC5.collections.length ≤ 10 ∧
    (recC5.database = "⚠️  Connected but Error: " ++ pySlice errC5 50 ∧
     (pySlice errC5 50).length ≤ 50) :=
  ⟨(C5_collections_bounded_error_truncated envC5 dC5 recC5 rfl rfl).1,
   (C5_collections_bounded_error_truncated envC5 dC5 recC5 rfl rfl).2 errC5 rfl⟩

/-- C6: `get_course_map` returns exactly 5 stages whose keys appear in the
fixed order [launchpad, prelaunch, ignition, ascent, orbit]; every stage
has exactly 2 lessons; and within each stage the lesson ids are pairwise
distinct. -/
theorem C6_course_map_shape :
    get_course_map.length = 5 ∧
    get_course_map.map CourseStage.key =
      ["launchpad", "prelaunch", "ignition", "ascent", "orbit"] ∧
    get_course_map.map (fun s => s.lessons.length) = [2, 2, 2, 2, 2] ∧
    (get_course_map.map (fun s => s.lessons.map CourseLesson.id)).all
      (fun ids => decide ids.Nodup) = true :=
  ⟨rfl, rfl, rfl, by decide⟩

/-- C7: `get_news` returns exactly 3 items, and the set of `timeframe`
values occurring among them is exactly the two-element set
containing "short" and "long". -/
theorem C7_news_shape :
    get_news.length = 3 ∧
    (get_news.map NewsItem.timeframe).toFinset = ({"short", "long"} : Finset String) :=
  ⟨rfl, by decide⟩

/-- C8: `get_tools` returns exactly 3 items, and the `id` fields of the
returned items are pairwise distinct. -/
theorem C8_tools_shape :
    get_tools.length = 3 ∧ (get_tools.map ToolItem.id).Nodup :=
  ⟨rfl, by decide⟩

/-- C9: the news, tools, and course-map handlers take no input and are
deterministic — in any two environments (hence any two calls) they return
identical responses, and as pure functions they have no side effects. -/
theorem C9_content_handlers_deterministic (e1 e2 : Env) :
    handle .news e1 = handle .news e2 ∧
    handle .tools e1 = handle .tools e2 ∧
    handle .courseMap e1 = handle .courseMap e2 :=
  ⟨rfl, rfl, rfl⟩

/-- C10: for every stage returned by `get_course_map`, all lessons within
the stage carry the same level label, and that label is the stage's own
tier: Launchpad, Pre-Launch, Ignition, Ascent, Orbit respectively for the
five stages in order. -/
theorem C10_lesson_levels_match_stage_tier :
    get_course_map.map (fun s => (s.key, s.lessons.map CourseLesson.level)) =
      [("launchpad", ["Launchpad", "Launchpad"]),
       ("prelaunch", ["Pre-Launch", "Pre-Launch"]),
       ("ignition", ["Ignition", "Ignition"]),
       ("ascent", ["Ascent", "Ascent"]),
       ("orbit", ["Orbit", "Orbit"])] :=
  rfl

end Roqet
